import Mathlib

/-!
Verification of the sbs2024 progression/economy simulation.

The simulation state machine of `ShitState.cpp`, the store purchase logic of
`StoreSubState.cpp` and the terminal transition of `EndState.cpp` are embedded
shallowly below.  `f32` quantities are modelled as `ℚ`, `s16`/int fields of the
persistent record as `Int` (the one explicit `s16(...)` narrowing cast in
`EndState::init` is modelled by `toS16`).  Rendering, audio and asset loading
are out of scope (spec §1); they are dropped from the embedding (sound cues,
water animation and the splash one-shot flag influence no modelled state).
Persistence is modelled as a list of fire-and-forget save requests emitted by
each operation.
-/

namespace SBS

/-! ## Configuration data (config.hpp / cfg.json shape), spec §3 -/

structure LubeConf where
  base : ℚ
  upgrade : ℚ
  maxTier : Int
deriving DecidableEq

structure GravityConf where
  base : ℚ
  upgrade : ℚ
  threshold : ℚ
  maxTier : Int
deriving DecidableEq

structure OxyConf where
  regen : ℚ
  drain : ℚ
  min : ℚ
deriving DecidableEq

structure BrickConf where
  fallSpeed : ℚ
deriving DecidableEq

inductive ItemKind
  | lube
  | gravity
  | oxy
  | endGame
  | none
deriving DecidableEq

structure StoreItem where
  price : Int
  kind : ItemKind
  argument : Int
  prestige : Int
deriving DecidableEq

structure Config where
  lube : LubeConf
  gravity : GravityConf
  oxy : OxyConf
  brick : BrickConf
  store : List StoreItem
deriving DecidableEq

/-! ## Savefile (save.hpp is not under src/) -/

/-- Modelled from the spec: `save.hpp` is not under src/.  Spec §3/§6: the
versioned persistent record has fields `score`, `prestige`, `lubeTier`,
`gravityTier`, `oxyTier : int`; an absent record defaults to a zero-valued
record. -/
structure SaveV2 where
  score : Int := 0
  prestige : Int := 0
  lubeTier : Int := 0
  gravityTier : Int := 0
  oxyTier : Int := 0
deriving DecidableEq

/-- Modelled from the spec: `save.hpp` is not under src/.  Spec §3: the
in-memory savefile carries a transient `dirty : bool` flag which is not
persisted. -/
structure Savefile where
  v2 : SaveV2 := {}
  dirty : Bool := false
deriving DecidableEq

/-- A fire-and-forget persistence request (`data::Store::nqSave`): the storage
key together with the persisted record (the transient dirty flag is not part
of the persisted shape, spec §3/§6). -/
structure SaveReq where
  key : String
  record : SaveV2
deriving DecidableEq

/-! ## Store purchase logic (StoreSubState.cpp) -/

inductive Outcome
  | alreadyOwned
  | insufficientFunds
  | purchased
deriving DecidableEq

/-- `StoreSubState::hasItem` (StoreSubState.cpp lines 18-32). -/
def hasItem (save : Savefile) (item : StoreItem) : Bool :=
  if save.v2.prestige < item.prestige then false
  else
    match item.kind with
    | ItemKind.lube => decide (item.argument ≤ save.v2.lubeTier)
    | ItemKind.gravity => decide (item.argument ≤ save.v2.gravityTier)
    | ItemKind.oxy => decide (item.argument ≤ save.v2.oxyTier)
    | _ => false

/-- Result of `StoreSubState::acquire`: the updated savefile, the user-visible
outcome (purchase float / spec §4.2 `Outcome`), and whether the terminal
transition (`swapStatePtr(getEndState())`) was triggered. -/
structure AcqResult where
  save : Savefile
  outcome : Outcome
  endGame : Bool
deriving DecidableEq

/-- `StoreSubState::acquire` (StoreSubState.cpp lines 109-152).  The
`ItemKind.none` arm hits `NWGE_UNREACHABLE` (process abort), modelled as
`Option.none`. -/
def acquire (save : Savefile) (item : StoreItem) : Option AcqResult :=
  if hasItem save item then some ⟨save, Outcome.alreadyOwned, false⟩
  else if save.v2.score < item.price then some ⟨save, Outcome.insufficientFunds, false⟩
  else
    let sv : Savefile :=
      { save with v2 := { save.v2 with score := save.v2.score - item.price }, dirty := true }
    match item.kind with
    | ItemKind.lube =>
        some ⟨{ sv with v2 := { sv.v2 with lubeTier := max sv.v2.lubeTier item.argument } },
              Outcome.purchased, false⟩
    | ItemKind.gravity =>
        some ⟨{ sv with v2 := { sv.v2 with gravityTier := max sv.v2.gravityTier item.argument } },
              Outcome.purchased, false⟩
    | ItemKind.oxy =>
        some ⟨{ sv with v2 := { sv.v2 with oxyTier := max sv.v2.oxyTier item.argument } },
              Outcome.purchased, false⟩
    | ItemKind.endGame => some ⟨sv, Outcome.purchased, true⟩
    | ItemKind.none => Option.none

/-- Iterated purchase attempts of the same item (each attempt sees the
savefile left by the previous one); an aborted attempt ends the run. -/
def iterAcquire : Nat → Savefile → StoreItem → Savefile
  | 0, sv, _ => sv
  | n + 1, sv, item =>
    match acquire sv item with
    | some r => iterAcquire n r.save item
    | Option.none => sv

/-! ## Simulation state machine (ShitState.cpp) -/

/-- Constant `cEffortDecay = 0.3f`. -/
def cEffortDecay : ℚ := 3/10
/-- Constant `cEffortIncrement = 0.1f`. -/
def cEffortIncrement : ℚ := 1/10
/-- Constant `cMaxEffort = 1.0f`. -/
def cMaxEffort : ℚ := 1
/-- Constant `cProgressScalar = 0.5f`. -/
def cProgressScalar : ℚ := 1/2
/-- Constant `cCooldownValue = 3.0f`. -/
def cCooldownValue : ℚ := 3
/-- Constant `cFadeInTime = 1.0f`. -/
def cFadeInTime : ℚ := 1

/-- The transient simulation state of `ShitState` (member variables that feed
the tick/input logic; textures, sounds and the water animation are rendering
state and carry no simulation information). -/
structure ShitSt where
  effort : ℚ
  oxy : ℚ
  outtaBreath : Bool
  progress : ℚ
  cooldown : ℚ
  gravity : ℚ
  progressDecay : ℚ
  brickFall : ℚ
  timer : ℚ
  save : Savefile
deriving DecidableEq

/-- `ShitState::recalculateProgressDecay`. -/
def recalculateProgressDecay (cfg : Config) (s : ShitSt) : ShitSt :=
  { s with progressDecay := cfg.lube.base - (s.save.v2.lubeTier : ℚ) * cfg.lube.upgrade }

/-- `ShitState::recalculateGravity`. -/
def recalculateGravity (cfg : Config) (s : ShitSt) : ShitSt :=
  { s with gravity := cfg.gravity.base + (s.save.v2.gravityTier : ℚ) * cfg.gravity.upgrade }

/-- Storage key used by `ShitState::save` and `ShitState::preload`. -/
def shitSaveKey : String := "progress"

/-- `ShitState::save`: `mStore.nqSave("progress", mSave)` (the
`refreshScoreString` call is rendering only).  Modelled from the spec: the
savefile serialization lives in `save.hpp`, which is not under src/; per spec
§3 the transient dirty flag is not persisted and is cleared once the record is
persisted ("persisted whenever dirty is observed true at the start of a tick,
then cleared"). -/
def shitSave (s : ShitSt) : ShitSt × List SaveReq :=
  ({ s with save := { s.save with dirty := false } }, [⟨shitSaveKey, s.save.v2⟩])

/-- The state of `ShitState` right after `preload` (member initializers) and
`init` (which recalculates the derived constants from the loaded savefile). -/
def initShit (cfg : Config) (loaded : Savefile) : ShitSt :=
  recalculateGravity cfg (recalculateProgressDecay cfg
    { effort := 0, oxy := 1, outtaBreath := false, progress := 0, cooldown := 0,
      gravity := 0, progressDecay := 9/10, brickFall := -1, timer := 0, save := loaded })

/-- Dirty-flag check at the start of `ShitState::tick` (lines 392-394). -/
def flushStage (s : ShitSt) : ShitSt × List SaveReq :=
  if s.save.dirty then shitSave s else (s, [])

/-- The state after the dirty flush and the `mTimer += delta` update
(lines 392-398). -/
def afterTimer (dt : ℚ) (s0 : ShitSt) : ShitSt :=
  { (flushStage s0).1 with timer := (flushStage s0).1.timer + dt }

/-- Effort decay stage of `ShitState::tick` (lines 406-414). -/
def effortStage (dt : ℚ) (s : ShitSt) : ShitSt :=
  if 0 < s.effort then
    let e1 := s.effort - cEffortDecay * dt
    let e2 := if s.outtaBreath = true ∨ 0 < s.cooldown then e1 - dt else e1
    { s with effort := if e2 < 0 then 0 else e2 }
  else s

/-- Oxygen regen/drain stage of `ShitState::tick` (lines 416-429); the breath
sound cue is a pure side effect and is dropped. -/
def oxyStage (cfg : Config) (dt : ℚ) (s : ShitSt) : ShitSt :=
  let s1 := if s.oxy < 1 then { s with oxy := s.oxy + cfg.oxy.regen * dt }
            else { s with outtaBreath := false }
  let o := s1.oxy - s1.effort * cfg.oxy.drain * dt
  if o ≤ 0 then { s1 with oxy := 0, outtaBreath := true } else { s1 with oxy := o }

/-- The value of `mProgress` after the advance of lines 432-435 (effort-driven
advance plus the gravity acceleration past the threshold). -/
def advancedProgress (cfg : Config) (dt : ℚ) (s : ShitSt) : ℚ :=
  let p := s.progress + s.effort * cProgressScalar * dt
  if cfg.gravity.threshold ≤ p then p + s.gravity * dt else p

/-- Progress / cooldown stage of `ShitState::tick` (lines 431-457): advance and
possibly complete the fill, or count the cooldown down, or reset the cycle.
The completion cue (`mPop.play()`) and the splash one-shot flag are audio-only
and dropped. -/
def progressStage (cfg : Config) (dt : ℚ) (s : ShitSt) : ShitSt × List SaveReq :=
  if s.progress < 1 then
    let p := advancedProgress cfg dt s
    if 1 ≤ p then
      shitSave
        { s with progress := p, cooldown := cCooldownValue, brickFall := 0,
                 save := { s.save with v2 := { s.save.v2 with score := s.save.v2.score + 1 } } }
    else if 0 < p then
      let p2 := p - s.progressDecay * dt
      ({ s with progress := if p2 < 0 then 0 else p2 }, [])
    else
      ({ s with progress := p }, [])
  else if 0 < s.cooldown then
    ({ s with cooldown := s.cooldown - dt }, [])
  else
    (recalculateGravity cfg (recalculateProgressDecay cfg
      { s with progress := 0, cooldown := 0, brickFall := -1 }), [])

/-- Brick fall animation stage of `ShitState::tick` (lines 459-465); the splash
sound and its one-shot gate are audio-only and dropped. -/
def brickStage (cfg : Config) (dt : ℚ) (s : ShitSt) : ShitSt :=
  if 0 ≤ s.brickFall then { s with brickFall := s.brickFall + cfg.brick.fallSpeed * dt } else s

/-- The state after the dirty flush, timer update, effort and oxygen stages:
what the progress stage of the same tick observes. -/
def midState (cfg : Config) (dt : ℚ) (s0 : ShitSt) : ShitSt :=
  oxyStage cfg dt (effortStage dt (afterTimer dt s0))

/-- `ShitState::tick` (ShitState.cpp lines 391-467), returning the new state
and the persistence requests issued during the tick.  During the fade-in
(`mTimer < cFadeInTime`) the tick returns right after the timer update. -/
def shitTick (cfg : Config) (dt : ℚ) (s0 : ShitSt) : ShitSt × List SaveReq :=
  if (afterTimer dt s0).timer < cFadeInTime then (afterTimer dt s0, (flushStage s0).2)
  else
    (brickStage cfg dt (progressStage cfg dt (midState cfg dt s0)).1,
     (flushStage s0).2 ++ (progressStage cfg dt (midState cfg dt s0)).2)

/-- `ShitState::on` for a `MouseDown` event (ShitState.cpp lines 356-389).
`onStoreIcon` abstracts `updateHoveringStoreIcon` (pure geometry on the click
position: whether the click lies inside the store-icon hit region).  Returns
the new state and whether the store substate was pushed. -/
def shitOn (cfg : Config) (onStoreIcon : Bool) (s : ShitSt) : ShitSt × Bool :=
  if s.timer < cFadeInTime then (s, false)
  else if onStoreIcon then (s, true)
  else if s.outtaBreath = false ∧ s.cooldown ≤ 0 ∧ s.effort < cMaxEffort
          ∧ cfg.oxy.min ≤ s.oxy then
    ({ s with effort := s.effort + cEffortIncrement }, false)
  else (s, false)

/-! ## End-of-run terminal transition (EndState.cpp) -/

/-- Storage key used by `EndState::preload` and `EndState::init`. -/
def endSaveKey : String := "save.json"

/-- The narrowing cast `s16(...)` in `EndState::init` (two's complement
wrap-around into `[-32768, 32767]`). -/
def toS16 (n : Int) : Int := (n + 32768) % 65536 - 32768

/-- `EndState::init` (EndState.cpp lines 33-40): carry the loaded prestige
forward incremented by one, reset everything else, persist immediately under
`"save.json"`.  (`mSource.enqueue` is audio only.) -/
def endInit (loaded : SaveV2) : Savefile × List SaveReq :=
  let sv : Savefile := { v2 := { prestige := toS16 (loaded.prestige + 1) }, dirty := false }
  (sv, [⟨endSaveKey, sv.v2⟩])

/-! ## Traces of the gameplay screen -/

/-- An event delivered to the gameplay screen: a frame tick with its elapsed
time, a `MouseDown` (on or off the store icon), or a purchase attempt made
through the store overlay (which mutates the shared savefile). -/
inductive GameEvent
  | tick (dt : ℚ)
  | click (onStoreIcon : Bool)
  | purchase (item : StoreItem)
deriving DecidableEq

/-- One event step of the gameplay screen.  An aborting purchase
(`NWGE_UNREACHABLE` on an invalid kind) ends the run: no further state. -/
def stepEvent (cfg : Config) (s : ShitSt) : GameEvent → ShitSt
  | GameEvent.tick dt => (shitTick cfg dt s).1
  | GameEvent.click b => (shitOn cfg b s).1
  | GameEvent.purchase item =>
    match acquire s.save item with
    | some r => { s with save := r.save }
    | Option.none => s

/-- Run a sequence of events. -/
def runTrace (cfg : Config) (s : ShitSt) : List GameEvent → ShitSt
  | [] => s
  | e :: es => runTrace cfg (stepEvent cfg s e) es

/-! ## Predicates used by the theorems -/

/-- The lower-bound part of the clamping invariant: the transient variables
stay nonnegative (together with the derived gravity value and the gravity tier
it is recomputed from, which the preservation argument needs). -/
def LowerInv (s : ShitSt) : Prop :=
  0 ≤ s.effort ∧ 0 ≤ s.oxy ∧ 0 ≤ s.progress ∧ 0 ≤ s.gravity ∧ 0 ≤ s.save.v2.gravityTier

/-- Nonnegative gravity curve configuration (the shape spec §3 intends:
effective gravity `base + tier*upgrade` grows with the tier). -/
def GravityConfOK (cfg : Config) : Prop :=
  0 ≤ cfg.gravity.base ∧ 0 ≤ cfg.gravity.upgrade

/-- Every tick of the trace has `dt ≥ 0`. -/
def NonnegTrace (es : List GameEvent) : Prop :=
  ∀ dt : ℚ, GameEvent.tick dt ∈ es → 0 ≤ dt

/-- The tick on `s0` with elapsed time `dt` completes the fill from below:
the fade-in is over, the progress observed by the progress stage is `< 1`, and
the advanced progress reaches `≥ 1` (ShitState.cpp lines 431-447). -/
def Completes (cfg : Config) (dt : ℚ) (s0 : ShitSt) : Prop :=
  cFadeInTime ≤ s0.timer + dt ∧
  (midState cfg dt s0).progress < 1 ∧
  1 ≤ advancedProgress cfg dt (midState cfg dt s0)

/-! ## Concrete configurations, states and traces used by closed theorems -/

/-- A benign configuration: decay 0.9, no gravity (threshold unreachable), no
oxygen regen or drain, oxygen floor 0.5. -/
def cfgA : Config :=
  { lube := ⟨9/10, 0, 0⟩, gravity := ⟨0, 0, 2, 0⟩, oxy := ⟨0, 0, 1/2⟩,
    brick := ⟨0⟩, store := [] }

/-- Like `cfgA` but with strong oxygen regen (10/s) and drain 1/s, floor 0. -/
def cfgB : Config :=
  { lube := ⟨9/10, 0, 0⟩, gravity := ⟨0, 0, 2, 0⟩, oxy := ⟨10, 1, 0⟩,
    brick := ⟨0⟩, store := [] }

/-- No decay, strong gravity (10) past threshold 0.3, no oxygen dynamics. -/
def cfgC : Config :=
  { lube := ⟨0, 0, 0⟩, gravity := ⟨10, 0, 3/10, 0⟩, oxy := ⟨0, 0, 0⟩,
    brick := ⟨0⟩, store := [] }

/-- Wait out the fade-in, click ten times (effort reaches 1.0), tick 0.1 s
(effort decays to 0.97), click once more (effort 1.07), then a 0-length tick:
at the end of that tick effort still exceeds `cMaxEffort`. -/
def traceA : List GameEvent :=
  [GameEvent.tick 1,
   GameEvent.click false, GameEvent.click false, GameEvent.click false,
   GameEvent.click false, GameEvent.click false, GameEvent.click false,
   GameEvent.click false, GameEvent.click false, GameEvent.click false,
   GameEvent.click false,
   GameEvent.tick (1/10), GameEvent.click false, GameEvent.tick 0]

/-- Wait out the fade-in, click once, and let oxygen dip below 1 by draining;
the next tick regenerates `10 * 0.1 = 1` in one step, overshooting 1. -/
def traceB : List GameEvent :=
  [GameEvent.tick 1, GameEvent.click false, GameEvent.tick (1/10),
   GameEvent.tick (1/10)]

/-- Wait out the fade-in, click ten times, then one 1 s tick: progress passes
the 0.3 gravity threshold and jumps to 10.35, completing without any clamp. -/
def traceC : List GameEvent :=
  [GameEvent.tick 1,
   GameEvent.click false, GameEvent.click false, GameEvent.click false,
   GameEvent.click false, GameEvent.click false, GameEvent.click false,
   GameEvent.click false, GameEvent.click false, GameEvent.click false,
   GameEvent.click false,
   GameEvent.tick 1]

/-- A savefile owning lube tier 5 at prestige 0 with 50 points. -/
def c3Save : Savefile := { v2 := { score := 50, prestige := 0, lubeTier := 5 }, dirty := false }

/-- A lube-tier-2 item requiring prestige 1, priced 10. -/
def c3Item : StoreItem := { price := 10, kind := ItemKind.lube, argument := 2, prestige := 1 }

/-- Spec §8 example: `score=20`. -/
def c5Save : Savefile := { v2 := { score := 20 }, dirty := false }

/-- Spec §8 example: `item.price=30`. -/
def c5Item : StoreItem := { price := 30, kind := ItemKind.lube, argument := 1, prestige := 0 }

/-- A post-fade state with effort 0.95: one more click overshoots the max. -/
def c9State : ShitSt :=
  { effort := 19/20, oxy := 1, outtaBreath := false, progress := 0, cooldown := 0,
    gravity := 0, progressDecay := 9/10, brickFall := -1, timer := 2, save := {} }

/-- A mid-fade state (timer 0.5) satisfying all four click conditions. -/
def c9FadeState : ShitSt :=
  { effort := 0, oxy := 1, outtaBreath := false, progress := 0, cooldown := 0,
    gravity := 0, progressDecay := 9/10, brickFall := -1, timer := 1/2, save := {} }

/-- A freshly initialized state whose savefile was just marked dirty. -/
def c2State : ShitSt :=
  { effort := 0, oxy := 1, outtaBreath := false, progress := 0, cooldown := 0,
    gravity := 0, progressDecay := 9/10, brickFall := -1, timer := 0,
    save := { v2 := { score := 3 }, dirty := true } }

/-- A post-fade state at effort 1 and progress 0.9: the next 1 s tick
completes the fill. -/
def c7State : ShitSt :=
  { effort := 1, oxy := 1, outtaBreath := false, progress := 9/10, cooldown := 0,
    gravity := 0, progressDecay := 0, brickFall := -1, timer := 2, save := {} }

/-- A loaded v2 record with nonzero values in every field. -/
def c8Loaded : SaveV2 :=
  { score := 7, prestige := 5, lubeTier := 3, gravityTier := 2, oxyTier := 1 }

/-- A savefile with 50 points and no upgrades. -/
def c6Save : Savefile := { v2 := { score := 50 }, dirty := false }

/-- A lube-tier-2 item priced 10 with no prestige requirement. -/
def c6Item : StoreItem := { price := 10, kind := ItemKind.lube, argument := 2, prestige := 0 }

/-- The result of buying `c6Item` from `c6Save`. -/
def c6Result : AcqResult :=
  ⟨{ v2 := { score := 40, lubeTier := 2 }, dirty := true }, Outcome.purchased, false⟩

/-! ## Helper lemmas: store purchase logic -/

theorem acquire_tier_mono (save : Savefile) (item : StoreItem) (r : AcqResult)
    (h : acquire save item = some r) :
    save.v2.lubeTier ≤ r.save.v2.lubeTier ∧
    save.v2.gravityTier ≤ r.save.v2.gravityTier ∧
    save.v2.oxyTier ≤ r.save.v2.oxyTier := by
  simp only [acquire] at h
  split at h
  · injection h with h
    subst h
    exact ⟨le_refl _, le_refl _, le_refl _⟩
  · split at h
    · injection h with h
      subst h
      exact ⟨le_refl _, le_refl _, le_refl _⟩
    · split at h
      all_goals first
        | (injection h with h; subst h;
           refine ⟨?_, ?_, ?_⟩ <;> simp)
        | exact Option.noConfusion h

theorem acquire_purchased_tier (save : Savefile) (item : StoreItem) (r : AcqResult)
    (h : acquire save item = some r) (hp : r.outcome = Outcome.purchased) :
    (item.kind = ItemKind.lube → r.save.v2.lubeTier = max save.v2.lubeTier item.argument) ∧
    (item.kind = ItemKind.gravity → r.save.v2.gravityTier = max save.v2.gravityTier item.argument) ∧
    (item.kind = ItemKind.oxy → r.save.v2.oxyTier = max save.v2.oxyTier item.argument) := by
  simp only [acquire] at h
  split at h
  · injection h with h
    subst h
    exact absurd hp (by simp)
  · split at h
    · injection h with h
      subst h
      exact absurd hp (by simp)
    · split at h
      all_goals first
        | (injection h with h; subst h;
           next hk =>
             refine ⟨?_, ?_, ?_⟩ <;> intro hk2 <;> simp_all)
        | exact Option.noConfusion h

theorem acquire_lube_isSome (save : Savefile) (item : StoreItem)
    (hk : item.kind = ItemKind.lube) :
    ∃ r : AcqResult, acquire save item = some r ∧
      (r.save.v2.lubeTier = save.v2.lubeTier ∨
       r.save.v2.lubeTier = max save.v2.lubeTier item.argument) := by
  simp only [acquire]
  split
  · exact ⟨_, rfl, Or.inl rfl⟩
  · split
    · exact ⟨_, rfl, Or.inl rfl⟩
    · rw [hk]
      exact ⟨_, rfl, Or.inr rfl⟩

/-! ## Claim theorems: store purchase logic -/

/-- C3: there is a savefile and a tiered store item for which the purchase
succeeds and deducts the price from the score although the item's tier
argument is not above the owned tier, leaving every tier unchanged: ownership
is only checked through the `hasItem` early-return, which compares against the
item's own argument and is gated by the item's prestige requirement. -/
theorem c3_duplicate_tier_purchase_charges :
    ∃ (save : Savefile) (item : StoreItem) (r : AcqResult),
      item.kind = ItemKind.lube ∧
      item.argument ≤ save.v2.lubeTier ∧
      0 < item.price ∧
      save.v2.prestige < item.prestige ∧
      hasItem save item = false ∧
      acquire save item = some r ∧
      r.outcome = Outcome.purchased ∧
      r.save.v2.score = save.v2.score - item.price ∧
      r.save.v2.lubeTier = save.v2.lubeTier ∧
      r.save.v2.gravityTier = save.v2.gravityTier ∧
      r.save.v2.oxyTier = save.v2.oxyTier := by
  refine ⟨c3Save, c3Item,
    ⟨{ v2 := { score := 40, prestige := 0, lubeTier := 5 }, dirty := true },
     Outcome.purchased, false⟩, ?_⟩
  decide

/-- C4: purchase preconditions are checked in order, first match winning:
already owned (owned-tier test gated by the prestige floor) gives
`AlreadyOwned`, then `score < price` gives `InsufficientFunds`, otherwise the
purchase succeeds.  The second conjunct characterizes the ownership test of
`hasItem`. -/
theorem c4_precondition_order (save : Savefile) (item : StoreItem)
    (hk : item.kind ≠ ItemKind.none) :
    (acquire save item).map AcqResult.outcome =
      some (if hasItem save item then Outcome.alreadyOwned
            else if save.v2.score < item.price then Outcome.insufficientFunds
            else Outcome.purchased) ∧
    (hasItem save item = true ↔
      item.prestige ≤ save.v2.prestige ∧
      ((item.kind = ItemKind.lube ∧ item.argument ≤ save.v2.lubeTier) ∨
       (item.kind = ItemKind.gravity ∧ item.argument ≤ save.v2.gravityTier) ∨
       (item.kind = ItemKind.oxy ∧ item.argument ≤ save.v2.oxyTier))) := by
  constructor
  · simp only [acquire]
    split
    · next h => simp [h]
    · next h =>
      rw [Bool.not_eq_true] at h
      split
      · next h2 => simp [h, h2]
      · next h2 =>
        cases hkind : item.kind
        all_goals simp_all
  · simp only [hasItem]
    split
    · next h =>
      simp only [Bool.false_eq_true, false_iff]
      rintro ⟨hp, _⟩
      omega
    · next h =>
      cases hkind : item.kind <;> simp [hkind] <;> omega

/-- C5: with `score < price` the purchase is rejected without mutating the
savefile (neither score nor any tier), and repeating the attempt any number of
times leaves the savefile identical. -/
theorem c5_insufficient_funds_no_mutation (save : Savefile) (item : StoreItem)
    (h : save.v2.score < item.price) :
    (∃ r : AcqResult, acquire save item = some r ∧ r.save = save ∧
      r.outcome ≠ Outcome.purchased) ∧
    ∀ n : Nat, iterAcquire n save item = save := by
  obtain ⟨o, ho, key⟩ :
      ∃ o : Outcome, o ≠ Outcome.purchased ∧
        acquire save item = some ⟨save, o, false⟩ := by
    by_cases h1 : hasItem save item
    · exact ⟨Outcome.alreadyOwned, by simp, by simp [acquire, h1]⟩
    · exact ⟨Outcome.insufficientFunds, by simp, by simp [acquire, h1, h]⟩
  constructor
  · exact ⟨_, key, rfl, ho⟩
  · intro n
    induction n with
    | zero => rfl
    | succ n ih =>
      simp only [iterAcquire, key]
      exact ih

/-- C6: a successful purchase of a tiered item raises the corresponding tier
to `max(currentTier, argument)`; every purchase leaves all tiers monotonically
non-decreasing; and buying a `kind=Lube, argument=2` item twice yields
`lubeTier = 2`, not 4. -/
theorem c6_tier_max_monotone :
    (∀ (save : Savefile) (item : StoreItem) (r : AcqResult),
      acquire save item = some r → r.outcome = Outcome.purchased →
      (item.kind = ItemKind.lube →
        r.save.v2.lubeTier = max save.v2.lubeTier item.argument) ∧
      (item.kind = ItemKind.gravity →
        r.save.v2.gravityTier = max save.v2.gravityTier item.argument) ∧
      (item.kind = ItemKind.oxy →
        r.save.v2.oxyTier = max save.v2.oxyTier item.argument)) ∧
    (∀ (save : Savefile) (item : StoreItem) (r : AcqResult),
      acquire save item = some r →
      save.v2.lubeTier ≤ r.save.v2.lubeTier ∧
      save.v2.gravityTier ≤ r.save.v2.gravityTier ∧
      save.v2.oxyTier ≤ r.save.v2.oxyTier) ∧
    (∀ (save : Savefile) (item : StoreItem) (r : AcqResult),
      item.kind = ItemKind.lube → item.argument = 2 → save.v2.lubeTier ≤ 2 →
      acquire save item = some r → r.outcome = Outcome.purchased →
      r.save.v2.lubeTier = 2 ∧ (iterAcquire 1 r.save item).v2.lubeTier = 2) := by
  refine ⟨acquire_purchased_tier, acquire_tier_mono, ?_⟩
  intro save item r hk harg hle h hp
  have h1 := (acquire_purchased_tier save item r h hp).1 hk
  have hr1 : r.save.v2.lubeTier = 2 := by rw [h1, harg]; omega
  refine ⟨hr1, ?_⟩
  obtain ⟨r2, h2, h2t⟩ := acquire_lube_isSome r.save item hk
  simp only [iterAcquire, h2]
  rcases h2t with h2t | h2t <;> rw [h2t] <;> rw [hr1] <;> omega

/-- C8: the terminal transition increments prestige by exactly one, resets
score and every tier to the zero default, persists the new record immediately
under its key, and a second consecutive terminal transition nets another +1
from the new base (no double count).  Stated for prestige values whose
increments stay inside the `s16` range of the narrowing cast in
`EndState::init`. -/
theorem c8_terminal_transition (loaded : SaveV2)
    (h1 : -32768 ≤ loaded.prestige) (h2 : loaded.prestige + 2 ≤ 32767) :
    (endInit loaded).1.v2.prestige = loaded.prestige + 1 ∧
    (endInit loaded).1.v2.score = 0 ∧
    (endInit loaded).1.v2.lubeTier = 0 ∧
    (endInit loaded).1.v2.gravityTier = 0 ∧
    (endInit loaded).1.v2.oxyTier = 0 ∧
    (endInit loaded).1.dirty = false ∧
    (endInit loaded).2 = [⟨endSaveKey, (endInit loaded).1.v2⟩] ∧
    (endInit (endInit loaded).1.v2).1.v2.prestige = loaded.prestige + 2 := by
  have hw : ∀ n : Int, -32768 ≤ n → n ≤ 32767 → toS16 n = n := by
    intro n hn1 hn2
    simp only [toS16]
    omega
  have hfst : (endInit loaded).1.v2.prestige = loaded.prestige + 1 := by
    simp only [endInit]
    exact hw _ (by omega) (by omega)
  refine ⟨hfst, rfl, rfl, rfl, rfl, rfl, rfl, ?_⟩
  show toS16 ((endInit loaded).1.v2.prestige + 1) = loaded.prestige + 2
  rw [hfst]
  have harith : loaded.prestige + 1 + 1 = loaded.prestige + 2 := by omega
  rw [harith]
  exact hw _ (by omega) (by omega)

/-! ## Helper lemmas: simulation stages -/

theorem afterTimer_timer (dt : ℚ) (s : ShitSt) : (afterTimer dt s).timer = s.timer + dt := by
  simp only [afterTimer, flushStage, shitSave]
  split <;> rfl

theorem afterTimer_dirty (dt : ℚ) (s : ShitSt) : (afterTimer dt s).save.dirty = false := by
  simp only [afterTimer, flushStage, shitSave]
  split
  · rfl
  · next h => simpa using h

theorem afterTimer_v2 (dt : ℚ) (s : ShitSt) : (afterTimer dt s).save.v2 = s.save.v2 := by
  simp only [afterTimer, flushStage, shitSave]
  split <;> rfl

theorem afterTimer_numeric (dt : ℚ) (s : ShitSt) :
    (afterTimer dt s).effort = s.effort ∧ (afterTimer dt s).oxy = s.oxy ∧
    (afterTimer dt s).outtaBreath = s.outtaBreath ∧
    (afterTimer dt s).progress = s.progress ∧ (afterTimer dt s).cooldown = s.cooldown ∧
    (afterTimer dt s).gravity = s.gravity ∧ (afterTimer dt s).brickFall = s.brickFall := by
  simp only [afterTimer, flushStage, shitSave]
  split <;> exact ⟨rfl, rfl, rfl, rfl, rfl, rfl, rfl⟩

theorem flushStage_reqs (s : ShitSt) :
    (flushStage s).2 = if s.save.dirty then [⟨shitSaveKey, s.save.v2⟩] else [] := by
  simp only [flushStage, shitSave]
  split <;> simp_all

theorem effortStage_frame (dt : ℚ) (s : ShitSt) :
    (effortStage dt s).oxy = s.oxy ∧ (effortStage dt s).outtaBreath = s.outtaBreath ∧
    (effortStage dt s).progress = s.progress ∧ (effortStage dt s).cooldown = s.cooldown ∧
    (effortStage dt s).gravity = s.gravity ∧
    (effortStage dt s).brickFall = s.brickFall ∧ (effortStage dt s).save = s.save := by
  simp only [effortStage]
  split <;> exact ⟨rfl, rfl, rfl, rfl, rfl, rfl, rfl⟩

theorem effortStage_effort_nonneg (dt : ℚ) (s : ShitSt) (h : 0 ≤ s.effort) :
    0 ≤ (effortStage dt s).effort := by
  simp only [effortStage]
  split
  · split <;> split
    all_goals first
      | exact le_rfl
      | (next h2 => exact le_of_not_lt h2)
  · exact h

theorem oxyStage_frame (cfg : Config) (dt : ℚ) (s : ShitSt) :
    (oxyStage cfg dt s).effort = s.effort ∧ (oxyStage cfg dt s).progress = s.progress ∧
    (oxyStage cfg dt s).cooldown = s.cooldown ∧ (oxyStage cfg dt s).gravity = s.gravity ∧
    (oxyStage cfg dt s).brickFall = s.brickFall ∧ (oxyStage cfg dt s).timer = s.timer ∧
    (oxyStage cfg dt s).save = s.save := by
  simp only [oxyStage]
  split <;> split <;> exact ⟨rfl, rfl, rfl, rfl, rfl, rfl, rfl⟩

theorem oxyStage_oxy_nonneg (cfg : Config) (dt : ℚ) (s : ShitSt) :
    0 ≤ (oxyStage cfg dt s).oxy := by
  simp only [oxyStage]
  split <;> split
  all_goals first
    | exact le_rfl
    | (next h => exact le_of_not_le h)

theorem advancedProgress_nonneg (cfg : Config) (dt : ℚ) (s : ShitSt)
    (hdt : 0 ≤ dt) (he : 0 ≤ s.effort) (hp : 0 ≤ s.progress) (hg : 0 ≤ s.gravity) :
    0 ≤ advancedProgress cfg dt s := by
  have hscal : (0:ℚ) ≤ cProgressScalar := by norm_num [cProgressScalar]
  have h1 : 0 ≤ s.effort * cProgressScalar * dt := mul_nonneg (mul_nonneg he hscal) hdt
  have h2 : 0 ≤ s.gravity * dt := mul_nonneg hg hdt
  simp only [advancedProgress]
  split <;> linarith

theorem progressStage_no_complete (cfg : Config) (dt : ℚ) (s : ShitSt)
    (h : ¬(s.progress < 1 ∧ 1 ≤ advancedProgress cfg dt s)) :
    (progressStage cfg dt s).1.save = s.save ∧ (progressStage cfg dt s).2 = [] := by
  simp only [progressStage]
  split
  · next h1 =>
    rw [if_neg (fun hc => h ⟨h1, hc⟩)]
    split <;> exact ⟨rfl, rfl⟩
  · split <;> exact ⟨rfl, rfl⟩

theorem progressStage_complete (cfg : Config) (dt : ℚ) (s : ShitSt)
    (h1 : s.progress < 1) (h2 : 1 ≤ advancedProgress cfg dt s) :
    (progressStage cfg dt s).1 =
      { s with progress := advancedProgress cfg dt s, cooldown := cCooldownValue,
               brickFall := 0,
               save := { v2 := { s.save.v2 with score := s.save.v2.score + 1 },
                         dirty := false } } ∧
    (progressStage cfg dt s).2 =
      [⟨shitSaveKey, { s.save.v2 with score := s.save.v2.score + 1 }⟩] := by
  simp only [progressStage, shitSave]
  rw [if_pos h1, if_pos h2]
  exact ⟨rfl, rfl⟩

theorem brickStage_frame (cfg : Config) (dt : ℚ) (s : ShitSt) :
    (brickStage cfg dt s).effort = s.effort ∧ (brickStage cfg dt s).oxy = s.oxy ∧
    (brickStage cfg dt s).progress = s.progress ∧
    (brickStage cfg dt s).cooldown = s.cooldown ∧
    (brickStage cfg dt s).gravity = s.gravity ∧
    (brickStage cfg dt s).timer = s.timer ∧ (brickStage cfg dt s).save = s.save := by
  simp only [brickStage]
  split <;> exact ⟨rfl, rfl, rfl, rfl, rfl, rfl, rfl⟩

theorem brickStage_falling (cfg : Config) (dt : ℚ) (s : ShitSt) (h : 0 ≤ s.brickFall) :
    (brickStage cfg dt s).brickFall = s.brickFall + cfg.brick.fallSpeed * dt := by
  simp only [brickStage]
  rw [if_pos h]

theorem midState_v2 (cfg : Config) (dt : ℚ) (s0 : ShitSt) :
    (midState cfg dt s0).save.v2 = s0.save.v2 := by
  simp only [midState]
  rw [(oxyStage_frame cfg dt _).2.2.2.2.2.2, (effortStage_frame dt _).2.2.2.2.2.2,
    afterTimer_v2]

theorem midState_dirty (cfg : Config) (dt : ℚ) (s0 : ShitSt) :
    (midState cfg dt s0).save.dirty = false := by
  simp only [midState]
  rw [(oxyStage_frame cfg dt _).2.2.2.2.2.2, (effortStage_frame dt _).2.2.2.2.2.2,
    afterTimer_dirty]

/-! ## Invariant preservation lemmas (lower clamping) -/

theorem effortStage_inv (dt : ℚ) (s : ShitSt) (h : LowerInv s) :
    LowerInv (effortStage dt s) := by
  obtain ⟨he, ho, hp, hg, hgt⟩ := h
  obtain ⟨f1, _, f3, _, f5, _, f7⟩ := effortStage_frame dt s
  exact ⟨effortStage_effort_nonneg dt s he, f1 ▸ ho, f3 ▸ hp, f5 ▸ hg, f7 ▸ hgt⟩

theorem oxyStage_inv (cfg : Config) (dt : ℚ) (s : ShitSt) (h : LowerInv s) :
    LowerInv (oxyStage cfg dt s) := by
  obtain ⟨he, ho, hp, hg, hgt⟩ := h
  obtain ⟨f1, f2, _, f4, _, _, f7⟩ := oxyStage_frame cfg dt s
  exact ⟨f1 ▸ he, oxyStage_oxy_nonneg cfg dt s, f2 ▸ hp, f4 ▸ hg, f7 ▸ hgt⟩

theorem progressStage_inv (cfg : Config) (dt : ℚ) (s : ShitSt)
    (hcfg : GravityConfOK cfg) (hdt : 0 ≤ dt) (h : LowerInv s) :
    LowerInv (progressStage cfg dt s).1 := by
  obtain ⟨hb, hu⟩ := hcfg
  obtain ⟨he, ho, hp, hg, hgt⟩ := h
  have hadv : 0 ≤ advancedProgress cfg dt s :=
    advancedProgress_nonneg cfg dt s hdt he hp hg
  simp only [progressStage, shitSave]
  split
  · split
    · exact ⟨he, ho, hadv, hg, hgt⟩
    · split
      · refine ⟨he, ho, ?_, hg, hgt⟩
        show (0:ℚ) ≤ if _ < 0 then 0 else _
        split
        · exact le_refl 0
        · next h2 => exact le_of_not_lt h2
      · exact ⟨he, ho, hadv, hg, hgt⟩
  · split
    · exact ⟨he, ho, hp, hg, hgt⟩
    · refine ⟨he, ho, le_refl 0, ?_, hgt⟩
      show 0 ≤ cfg.gravity.base + (s.save.v2.gravityTier : ℚ) * cfg.gravity.upgrade
      have hcast : (0:ℚ) ≤ (s.save.v2.gravityTier : ℚ) := by exact_mod_cast hgt
      have := mul_nonneg hcast hu
      linarith

theorem brickStage_inv (cfg : Config) (dt : ℚ) (s : ShitSt) (h : LowerInv s) :
    LowerInv (brickStage cfg dt s) := by
  obtain ⟨he, ho, hp, hg, hgt⟩ := h
  obtain ⟨f1, f2, f3, _, f5, _, f7⟩ := brickStage_frame cfg dt s
  exact ⟨f1 ▸ he, f2 ▸ ho, f3 ▸ hp, f5 ▸ hg, f7 ▸ hgt⟩

theorem afterTimer_inv (dt : ℚ) (s : ShitSt) (h : LowerInv s) :
    LowerInv (afterTimer dt s) := by
  obtain ⟨he, ho, hp, hg, hgt⟩ := h
  obtain ⟨f1, f2, _, f4, _, f6, _⟩ := afterTimer_numeric dt s
  have f8 := afterTimer_v2 dt s
  exact ⟨f1 ▸ he, f2 ▸ ho, f4 ▸ hp, f6 ▸ hg, f8 ▸ hgt⟩

theorem shitTick_inv (cfg : Config) (hcfg : GravityConfOK cfg) (dt : ℚ) (hdt : 0 ≤ dt)
    (s : ShitSt) (h : LowerInv s) : LowerInv (shitTick cfg dt s).1 := by
  simp only [shitTick]
  split
  · exact afterTimer_inv dt s h
  · exact brickStage_inv cfg dt _ (progressStage_inv cfg dt _ hcfg hdt
      (oxyStage_inv cfg dt _ (effortStage_inv dt _ (afterTimer_inv dt s h))))

theorem shitOn_inv (cfg : Config) (b : Bool) (s : ShitSt) (h : LowerInv s) :
    LowerInv (shitOn cfg b s).1 := by
  obtain ⟨he, ho, hp, hg, hgt⟩ := h
  have hinc : (0:ℚ) ≤ cEffortIncrement := by norm_num [cEffortIncrement]
  simp only [shitOn]
  split
  · exact ⟨he, ho, hp, hg, hgt⟩
  · split
    · exact ⟨he, ho, hp, hg, hgt⟩
    · split
      · refine ⟨?_, ho, hp, hg, hgt⟩
        show 0 ≤ s.effort + cEffortIncrement
        linarith
      · exact ⟨he, ho, hp, hg, hgt⟩

theorem stepEvent_inv (cfg : Config) (hcfg : GravityConfOK cfg) (s : ShitSt)
    (h : LowerInv s) (e : GameEvent) (hd : ∀ d : ℚ, e = GameEvent.tick d → 0 ≤ d) :
    LowerInv (stepEvent cfg s e) := by
  cases e with
  | tick dt => exact shitTick_inv cfg hcfg dt (hd dt rfl) s h
  | click b => exact shitOn_inv cfg b s h
  | purchase item =>
    obtain ⟨he, ho, hp, hg, hgt⟩ := h
    simp only [stepEvent]
    cases hacq : acquire s.save item with
    | none => exact ⟨he, ho, hp, hg, hgt⟩
    | some r =>
      have hmono := (acquire_tier_mono s.save item r hacq).2.1
      exact ⟨he, ho, hp, hg, le_trans hgt hmono⟩

theorem runTrace_inv (cfg : Config) (hcfg : GravityConfOK cfg) (es : List GameEvent)
    (hes : NonnegTrace es) (s : ShitSt) (h : LowerInv s) :
    LowerInv (runTrace cfg s es) := by
  induction es generalizing s with
  | nil => exact h
  | cons e es ih =>
    refine ih (fun d hd => hes d (List.mem_cons_of_mem e hd)) _
      (stepEvent_inv cfg hcfg s h e ?_)
    intro d hd
    refine hes d ?_
    rw [← hd]
    exact List.mem_cons_self e es

/-! ## Claim theorems: simulation -/

/-- C10: the gameplay screen loads and persists the savefile under the key
`"progress"` while the end-of-run screen loads and persists under the distinct
key `"save.json"`: every persistence request a gameplay tick can issue uses
`"progress"`, and the terminal transition's single request uses `"save.json"`,
so each writes a record the other never touches. -/
theorem c10_distinct_storage_keys :
    shitSaveKey ≠ endSaveKey ∧
    (∀ (cfg : Config) (dt : ℚ) (s : ShitSt),
      ((shitTick cfg dt s).2.map SaveReq.key).all (fun k => k == shitSaveKey) = true) ∧
    (∀ loaded : SaveV2,
      ((endInit loaded).2.map SaveReq.key).all (fun k => k == endSaveKey) = true) := by
  refine ⟨by decide, ?_, ?_⟩
  · intro cfg dt s
    have hf : ((flushStage s).2.map SaveReq.key).all (fun k => k == shitSaveKey) = true := by
      simp only [flushStage, shitSave]
      split <;> simp
    have hp : ∀ s1 : ShitSt,
        ((progressStage cfg dt s1).2.map SaveReq.key).all (fun k => k == shitSaveKey)
          = true := by
      intro s1
      simp only [progressStage, shitSave]
      split
      · split
        · simp
        · split <;> simp
      · split <;> simp
    simp only [shitTick]
    split
    · exact hf
    · simp only [List.map_append, List.all_append, hf, hp, Bool.and_self]
  · intro loaded
    simp [endInit]

/-- C1 fails as stated: the upper bounds are not enforced by the code.  From
the initial state, a reachable trace of nonnegative-`dt` ticks and clicks ends
a tick with `effort = 1.07 > cMaxEffort`; another ends a tick with
`oxy = 1.989 > 1` (regen overshoot); another ends a tick with
`progress = 10.35 > 1` (no clamp on completion). -/
theorem c1_counterexample :
    cMaxEffort < (runTrace cfgA (initShit cfgA {}) traceA).effort ∧
    1 < (runTrace cfgB (initShit cfgB {}) traceB).oxy ∧
    1 < (runTrace cfgC (initShit cfgC {}) traceC).progress := by
  refine ⟨?_, ?_, ?_⟩ <;>
    norm_num [runTrace, stepEvent, shitTick, shitOn, afterTimer, flushStage, shitSave,
      midState, effortStage, oxyStage, progressStage, advancedProgress, brickStage,
      recalculateGravity, recalculateProgressDecay, initShit, cfgA, cfgB, cfgC,
      traceA, traceB, traceC, cEffortDecay, cEffortIncrement, cMaxEffort,
      cProgressScalar, cCooldownValue, cFadeInTime]

/-- C1 (amended): only the lower bounds are clamped.  For every sequence of
ticks with `dt ≥ 0` and interleaved click and purchase events starting from
the initialized state (with a nonnegative gravity curve and a nonnegative
loaded gravity tier), `effort ≥ 0`, `oxy ≥ 0` and `progress ≥ 0` hold at the
end of every tick — every prefix of a trace is itself a trace, so the
invariant holds after each event; the upper bounds `effort ≤ max`, `oxy ≤ 1`
and `progress ≤ 1` are not enforced (see the counterexample). -/
theorem c1_lower_clamped (cfg : Config) (hcfg : GravityConfOK cfg)
    (loaded : Savefile) (hload : 0 ≤ loaded.v2.gravityTier)
    (es : List GameEvent) (hes : NonnegTrace es) :
    LowerInv (runTrace cfg (initShit cfg loaded) es) := by
  obtain ⟨hb, hu⟩ := hcfg
  refine runTrace_inv cfg ⟨hb, hu⟩ es hes _ ?_
  refine ⟨le_rfl, ?_, le_rfl, ?_, hload⟩
  · show (0:ℚ) ≤ 1
    norm_num
  · show 0 ≤ cfg.gravity.base + (loaded.v2.gravityTier : ℚ) * cfg.gravity.upgrade
    have hcast : (0:ℚ) ≤ (loaded.v2.gravityTier : ℚ) := by exact_mod_cast hload
    have := mul_nonneg hcast hu
    linarith

/-- C1 witness: the amended invariant evaluated on a concrete trace. -/
theorem c1_lower_clamped_witness :
    LowerInv (runTrace cfgA (initShit cfgA {}) [GameEvent.tick 1]) := by
  refine c1_lower_clamped cfgA ?_ {} ?_ [GameEvent.tick 1] ?_
  · constructor <;> norm_num [cfgA]
  · decide
  · intro d hd
    simp only [List.mem_singleton, GameEvent.tick.injEq] at hd
    rw [hd]
    norm_num

/-- C2: if the savefile's dirty flag is observed true at the start of a tick,
the record is persisted (one `nqSave` request under the gameplay key, carrying
the record as observed) and the dirty flag is cleared; a tick starting with a
clean flag issues no request.  Stated for ticks that do not complete the fill
(a completion is a fresh mutation with its own save; in either case the tick
ends with `dirty = false`, so one mutation yields exactly one request, not one
per subsequent tick). -/
theorem c2_single_flush (cfg : Config) (dt : ℚ) (s : ShitSt)
    (hnc : ¬ Completes cfg dt s) :
    (shitTick cfg dt s).1.save.dirty = false ∧
    (s.save.dirty = true → (shitTick cfg dt s).2 = [⟨shitSaveKey, s.save.v2⟩]) ∧
    (s.save.dirty = false → (shitTick cfg dt s).2 = []) := by
  have hreq := flushStage_reqs s
  simp only [shitTick]
  split
  · refine ⟨afterTimer_dirty dt s, ?_, ?_⟩
    · intro hd
      show (flushStage s).2 = _
      rw [hreq, if_pos hd]
    · intro hd
      show (flushStage s).2 = _
      rw [hreq, if_neg (by simp [hd])]
  · next hfade =>
    have hA : cFadeInTime ≤ s.timer + dt := by
      rw [afterTimer_timer] at hfade
      exact le_of_not_lt hfade
    have hnb : ¬((midState cfg dt s).progress < 1 ∧
        1 ≤ advancedProgress cfg dt (midState cfg dt s)) := by
      intro hx
      exact hnc ⟨hA, hx.1, hx.2⟩
    obtain ⟨hsv, hrq⟩ := progressStage_no_complete cfg dt (midState cfg dt s) hnb
    refine ⟨?_, ?_, ?_⟩
    · show (brickStage cfg dt (progressStage cfg dt (midState cfg dt s)).1).save.dirty
        = false
      rw [(brickStage_frame cfg dt _).2.2.2.2.2.2, hsv, midState_dirty]
    · intro hd
      show (flushStage s).2 ++ (progressStage cfg dt (midState cfg dt s)).2 = _
      rw [hrq, hreq, if_pos hd, List.append_nil]
    · intro hd
      show (flushStage s).2 ++ (progressStage cfg dt (midState cfg dt s)).2 = _
      rw [hrq, hreq, if_neg (by simp [hd]), List.append_nil]

/-- C2 witness: a dirty savefile is flushed exactly once by a tick. -/
theorem c2_single_flush_witness :
    (shitTick cfgA 0 c2State).1.save.dirty = false ∧
    (shitTick cfgA 0 c2State).2 = [⟨shitSaveKey, c2State.save.v2⟩] := by
  have h := c2_single_flush cfgA 0 c2State
    (by norm_num [Completes, c2State, cFadeInTime])
  exact ⟨h.1, h.2.1 rfl⟩

/-- C7: in every tick that completes the fill from below (`progress < 1`
going into the progress stage and the advanced progress reaching `≥ 1`),
regardless of prior input history, the score is incremented by exactly 1, the
cooldown is set to `cCooldownValue`, the brick fall is set to 0 by the
progress stage (the subsequent fall-animation stage of the same tick then
advances it by `fallSpeed * dt`). -/
theorem c7_completion_effects (cfg : Config) (dt : ℚ) (s0 : ShitSt)
    (hc : Completes cfg dt s0) :
    (shitTick cfg dt s0).1.save.v2.score = s0.save.v2.score + 1 ∧
    (shitTick cfg dt s0).1.cooldown = cCooldownValue ∧
    (progressStage cfg dt (midState cfg dt s0)).1.brickFall = 0 ∧
    (shitTick cfg dt s0).1.brickFall = cfg.brick.fallSpeed * dt := by
  obtain ⟨hA, hB, hC⟩ := hc
  obtain ⟨hrec, hreq⟩ := progressStage_complete cfg dt (midState cfg dt s0) hB hC
  have hfade : ¬ (afterTimer dt s0).timer < cFadeInTime := by
    rw [afterTimer_timer]
    exact not_lt.mpr hA
  simp only [shitTick, if_neg hfade]
  refine ⟨?_, ?_, ?_, ?_⟩
  · show (brickStage cfg dt (progressStage cfg dt (midState cfg dt s0)).1).save.v2.score = _
    rw [(brickStage_frame cfg dt _).2.2.2.2.2.2, hrec]
    show (midState cfg dt s0).save.v2.score + 1 = _
    rw [midState_v2]
  · show (brickStage cfg dt (progressStage cfg dt (midState cfg dt s0)).1).cooldown = _
    rw [(brickStage_frame cfg dt _).2.2.2.1, hrec]
  · rw [hrec]
  · show (brickStage cfg dt (progressStage cfg dt (midState cfg dt s0)).1).brickFall = _
    have hbf : 0 ≤ (progressStage cfg dt (midState cfg dt s0)).1.brickFall := by
      rw [hrec]
    rw [brickStage_falling cfg dt _ hbf, hrec]
    show (0:ℚ) + cfg.brick.fallSpeed * dt = _
    ring

/-- C7 witness: a concrete completing tick. -/
theorem c7_completion_effects_witness :
    (shitTick cfgC 1 c7State).1.save.v2.score = c7State.save.v2.score + 1 ∧
    (shitTick cfgC 1 c7State).1.cooldown = cCooldownValue ∧
    (progressStage cfgC 1 (midState cfgC 1 c7State)).1.brickFall = 0 ∧
    (shitTick cfgC 1 c7State).1.brickFall = cfgC.brick.fallSpeed * 1 := by
  refine c7_completion_effects cfgC 1 c7State ?_
  refine ⟨?_, ?_, ?_⟩ <;>
    norm_num [Completes, midState, afterTimer, flushStage, shitSave, effortStage,
      oxyStage, advancedProgress, c7State, cfgC, cEffortDecay, cProgressScalar,
      cFadeInTime]

/-- C9 fails as stated: the click handler does not clamp the effort increment
to the max.  At `effort = 0.95` with every gating condition satisfied, a click
yields `effort = 1.05 > cMaxEffort` (the claimed clamped value would be 1);
moreover during the fade-in (timer 0.5 < 1 s) a click satisfying all four
conditions leaves effort unchanged, so the four conditions alone are not
sufficient. -/
theorem c9_counterexample :
    (c9State.outtaBreath = false ∧ c9State.cooldown ≤ 0 ∧
      c9State.effort < cMaxEffort ∧ cfgA.oxy.min ≤ c9State.oxy) ∧
    (shitOn cfgA false c9State).1.effort = 21/20 ∧
    cMaxEffort < (shitOn cfgA false c9State).1.effort ∧
    (c9FadeState.outtaBreath = false ∧ c9FadeState.cooldown ≤ 0 ∧
      c9FadeState.effort < cMaxEffort ∧ cfgA.oxy.min ≤ c9FadeState.oxy) ∧
    (shitOn cfgA false c9FadeState).1.effort = c9FadeState.effort := by
  refine ⟨?_, ?_, ?_, ?_, ?_⟩ <;>
    norm_num [shitOn, c9State, c9FadeState, cfgA, cMaxEffort, cEffortIncrement,
      cFadeInTime]

/-- C9 (amended): after the fade-in, a click outside the store icon adds
exactly one effort increment — without any clamp, so the result may exceed
the max by up to one increment — iff not `outOfBreath`, `cooldown ≤ 0`,
`effort < max` and `oxy ≥ oxy.min` all hold; a click failing any condition
(and any click during the fade-in) leaves the state unchanged. -/
theorem c9_click_gating (cfg : Config) (s : ShitSt) (h : cFadeInTime ≤ s.timer) :
    ((s.outtaBreath = false ∧ s.cooldown ≤ 0 ∧ s.effort < cMaxEffort ∧
        cfg.oxy.min ≤ s.oxy) →
      (shitOn cfg false s).1 = { s with effort := s.effort + cEffortIncrement }) ∧
    (¬(s.outtaBreath = false ∧ s.cooldown ≤ 0 ∧ s.effort < cMaxEffort ∧
        cfg.oxy.min ≤ s.oxy) →
      (shitOn cfg false s).1 = s) := by
  simp only [shitOn, if_neg (not_lt.mpr h)]
  constructor
  · intro hcond
    rw [if_neg (by simp), if_pos hcond]
  · intro hcond
    rw [if_neg (by simp), if_neg hcond]

/-- C9 witness: the amended gating evaluated at a concrete post-fade state. -/
theorem c9_click_gating_witness :
    (shitOn cfgA false c9State).1 =
      { c9State with effort := c9State.effort + cEffortIncrement } := by
  refine (c9_click_gating cfgA c9State ?_).1 ?_
  · norm_num [c9State, cFadeInTime]
  · refine ⟨rfl, ?_, ?_, ?_⟩ <;> norm_num [c9State, cfgA, cMaxEffort]

/-- C8 witness: the theorem applied to `c8Loaded`. -/
theorem c8_terminal_transition_witness :
    (endInit c8Loaded).1.v2.prestige = 6 ∧
    (endInit c8Loaded).1.v2.score = 0 ∧
    (endInit c8Loaded).1.v2.lubeTier = 0 ∧
    (endInit c8Loaded).1.v2.gravityTier = 0 ∧
    (endInit c8Loaded).1.v2.oxyTier = 0 ∧
    (endInit (endInit c8Loaded).1.v2).1.v2.prestige = 7 := by
  have h := c8_terminal_transition c8Loaded (by decide) (by decide)
  exact ⟨h.1, h.2.1, h.2.2.1, h.2.2.2.1, h.2.2.2.2.1, h.2.2.2.2.2.2.2⟩

/-- C4 witness: the precondition order evaluated at a concrete rejected
purchase (spec §8 example: score 20, price 30). -/
theorem c4_precondition_order_witness :
    (acquire c5Save c5Item).map AcqResult.outcome =
      some (if hasItem c5Save c5Item then Outcome.alreadyOwned
            else if c5Save.v2.score < c5Item.price then Outcome.insufficientFunds
            else Outcome.purchased) ∧
    (hasItem c5Save c5Item = true ↔
      c5Item.prestige ≤ c5Save.v2.prestige ∧
      ((c5Item.kind = ItemKind.lube ∧ c5Item.argument ≤ c5Save.v2.lubeTier) ∨
       (c5Item.kind = ItemKind.gravity ∧ c5Item.argument ≤ c5Save.v2.gravityTier) ∨
       (c5Item.kind = ItemKind.oxy ∧ c5Item.argument ≤ c5Save.v2.oxyTier))) :=
  c4_precondition_order c5Save c5Item (by decide)

/-- C5 witness: three rejected attempts at score 20 against price 30 leave
the savefile identical. -/
theorem c5_insufficient_funds_no_mutation_witness :
    c5Save.v2.score < c5Item.price ∧ iterAcquire 3 c5Save c5Item = c5Save :=
  ⟨by decide, (c5_insufficient_funds_no_mutation c5Save c5Item (by decide)).2 3⟩

/-- C6 witness: buying the lube-tier-2 item a second time leaves the tier at
2, not 4. -/
theorem c6_tier_max_monotone_witness :
    c6Result.save.v2.lubeTier = 2 ∧ (iterAcquire 1 c6Result.save c6Item).v2.lubeTier = 2 :=
  c6_tier_max_monotone.2.2 c6Save c6Item c6Result (by decide) (by decide) (by decide)
    (by decide) (by decide)

end SBS
